import Mathlib

/-!
Shallow embedding of `src/qturtle/turtlelib.py` (the qturtle master/slave
turtle-graphics dispatch module) and verification of its specification.

The module has two sides:
  * `_TurtleCtrl` (control proxy): `__call__` enqueues a plain command on a
    FIFO command queue; `get` enqueues a command whose name carries a leading
    `*` marker and busy-polls the result queue until non-empty.
  * `_TurtleWindow` (renderer): `timerEvent` fires on a periodic timer; if the
    command queue is non-empty it removes one task and `consume`s it; `consume`
    looks the command name up on the namespace object with `getattr` and
    either discards the return value (plain command) or puts it on the result
    queue (name starting with `*`).

Python exceptions (`AttributeError` from `getattr`, `NameError` from reading
an unbound local, `KeyError` from a dict subscript) are embedded with
`Except PyError`.  Queues are FIFO lists; the render-target namespace object
is a method table `String → Option (σ → α → σ × ρ)` over an abstract target
state `σ`, argument payload `α` and result value `ρ` (args/kwargs are opaque
to the dispatch layer, so they are bundled into one payload).
-/

namespace QTurtle

/-- Python exceptions that the embedded code can raise. -/
inductive PyError where
  | attributeError (name : String)
  | keyError (name : String)
  | nameError (name : String)
deriving DecidableEq, Repr

/-- A command record `[name, args, kwds]` travelling on the command queue.
`args`/`kwargs` are opaque to the dispatch layer and are bundled into one
payload value. -/
structure Cmd (α : Type) where
  name : String
  payload : α
deriving DecidableEq, Repr

/-- The render-target namespace object (`self._namespace`): `getattr` is an
optional lookup from method names to operations; an operation takes the target
state and the argument payload and returns the new state and a return value. -/
structure RenderTarget (σ α ρ : Type) where
  methods : String → Option (σ → α → σ × ρ)

/-- Joint state of the two shared queues and the render target.
`queue` is the command queue, `rqueue` the result queue; both FIFO
(`put` appends at the right, `get` removes at the left). -/
structure SysState (σ α ρ : Type) where
  queue : List (Cmd α)
  rqueue : List ρ
  target : σ
deriving DecidableEq, Repr

variable {σ α ρ : Type}

/-- Embeds the Python test `name.startswith('*')` for the one-character
query marker: true iff the first character of the name is `*`. -/
def isQueryName (s : String) : Bool := s.data.head? = some '*'

/-- Embeds `_TurtleWindow.consume(task)`: unpack `name, args, kwargs`; if the name
starts with `*`, look up the name with the marker stripped, call it and put
the return value on the result queue; otherwise look up the name, call it and
discard the return value.  `getattr` on an absent name raises
`AttributeError`, which propagates (there is no try/except in the source). -/
def consume (T : RenderTarget σ α ρ) (s : SysState σ α ρ) (task : Cmd α) :
    Except PyError (SysState σ α ρ) :=
  if isQueryName task.name then
    match T.methods (task.name.drop 1) with
    | none => .error (.attributeError (task.name.drop 1))
    | some m =>
      let p := m s.target task.payload
      .ok { s with target := p.1, rqueue := s.rqueue ++ [p.2] }
  else
    match T.methods task.name with
    | none => .error (.attributeError task.name)
    | some m => .ok { s with target := (m s.target task.payload).1 }

/-- Embeds `_TurtleWindow.timerEvent(timer)`: if the command queue is not empty,
remove one task from it and consume that task.  Note the source uses `if`,
not `while`: at most one command is processed per tick. -/
def timerEvent (T : RenderTarget σ α ρ) (s : SysState σ α ρ) :
    Except PyError (SysState σ α ρ) :=
  match s.queue with
  | [] => .ok s
  | task :: rest => consume T { s with queue := rest } task

/-- Runs `n` consecutive firings of the renderer timer. -/
def runTicks (T : RenderTarget σ α ρ) : Nat → SysState σ α ρ →
    Except PyError (SysState σ α ρ)
  | 0, s => .ok s
  | n + 1, s =>
    match timerEvent T s with
    | .error e => .error e
    | .ok s' => runTicks T n s'

/-- Embeds `_TurtleCtrl.__call__(name, *args, **kwds)`:
`self.queue.put([name, args, kwds])` — enqueue the command verbatim (no
marker is added) and return. -/
def ctrlCall (s : SysState σ α ρ) (name : String) (payload : α) :
    SysState σ α ρ :=
  { s with queue := s.queue ++ [⟨name, payload⟩] }

/-- First half of `_TurtleCtrl.get(name, *args, **kwds)`:
`self.queue.put(['*' + name, args, kwds])` — enqueue the command with the
query marker prepended. -/
def ctrlGetSend (s : SysState σ α ρ) (name : String) (payload : α) :
    SysState σ α ρ :=
  { s with queue := s.queue ++ [⟨"*" ++ name, payload⟩] }

/-- Second half of `_TurtleCtrl.get`: one probe of the polling loop
`while self.result_queue.empty(): sleep(1e-3)` followed by
`return self.result_queue.get()`.  While the result queue is empty the probe
yields nothing (the caller sleeps and polls again); as soon as it is
non-empty, exactly the oldest item is removed and returned. -/
def ctrlGetReceive (s : SysState σ α ρ) : Option (ρ × SysState σ α ρ) :=
  match s.rqueue with
  | [] => none
  | r :: rest => some (r, { s with rqueue := rest })

/-- Whether the command's (marker-stripped) name resolves on the target —
i.e. whether `getattr` in `consume` succeeds for this task. -/
def resolvesB (T : RenderTarget σ α ρ) (c : Cmd α) : Bool :=
  if isQueryName c.name then (T.methods (c.name.drop 1)).isSome
  else (T.methods c.name).isSome

/-- Reference fold for a whole command sequence: thread the target state
through the commands in order, collecting one result per marked (query)
command, in order, and none for plain commands.  (Unresolvable commands are
skipped; the theorems using this only apply it when every command resolves.) -/
def processAll (T : RenderTarget σ α ρ) : List (Cmd α) → σ → σ × List ρ
  | [], t => (t, [])
  | c :: cs, t =>
    if isQueryName c.name then
      match T.methods (c.name.drop 1) with
      | some m =>
        let p := m t c.payload
        let q := processAll T cs p.1
        (q.1, p.2 :: q.2)
      | none => processAll T cs t
    else
      match T.methods c.name with
      | some m => processAll T cs (m t c.payload).1
      | none => processAll T cs t

/-!
Embedding of the namespace-building half of the module
(`_simple_cmd`, `_get_cmd`, `qturtle_namespace`, `pytuga_namespace`).
The turtle namespace classes (`TurtleNamespaceEnglish`, `TurtleNamespace`,
imported from `qturtle.turtlenamespace`, which is outside the dispatch
module) are abstracted by their attribute set and alias table.  The wrapper
closures built by `_simple_cmd` / `_get_cmd` are represented by which proxy
entry point they invoke and with which name.
-/

/-- Abstraction of a turtle namespace class: which attribute names exist
(`getattr` succeeds exactly on these) and the alias table returned by
`_getaliases()`. -/
structure PyNamespaceClass where
  attrs : String → Bool
  aliases : List (String × String)

/-- A wrapper function placed in the namespace dictionary: `simple name`
calls `_turtle_ctrl(name, *args)`, `getter name` calls
`_turtle_ctrl.get(name, *args)`. -/
inductive Wrapper where
  | simple (name : String)
  | getter (name : String)
deriving DecidableEq, Repr

/-- A Python dict with string keys, as a pointwise-updated map. -/
def PyDict := String → Option Wrapper

/-- Empty dict literal `{}`. -/
def emptyDict : PyDict := fun _ => none

/-- Dict item assignment `d[k] = v`. -/
def dictUpdate (d : PyDict) (k : String) (v : Wrapper) : PyDict :=
  fun x => if x = k then some v else d x

/-- Embeds `_simple_cmd(name, ns)`: `functools.wraps(getattr(ns, name))`
raises `AttributeError` when the attribute is absent; otherwise the built
wrapper forwards to `_turtle_ctrl(name, *args)`. -/
def _simple_cmd (name : String) (ns : PyNamespaceClass) : Except PyError Wrapper :=
  if ns.attrs name then .ok (.simple name) else .error (.attributeError name)

/-- Embeds `_get_cmd(name, ns)`: like `_simple_cmd` but the wrapper forwards
to `_turtle_ctrl.get(name, *args)`. -/
def _get_cmd (name : String) (ns : PyNamespaceClass) : Except PyError Wrapper :=
  if ns.attrs name then .ok (.getter name) else .error (.attributeError name)

/-- The literal command list of `qturtle_namespace`. -/
def englishCommands : List String :=
  ["forward", "backward", "left", "right", "penup", "pendown", "goto", "jumpto",
   "setpos", "setheading", "setwidth", "setcolor", "setfill",
   "speed", "restart", "clear", "turtlehelp", "print_image"]

/-- The literal state-getter list of `qturtle_namespace`. -/
def englishGetters : List String :=
  ["getpos", "getheading", "getwidth", "getcolor", "getfill", "isdown"]

/-- One iteration of `namespace[_cmd] = _simple_cmd(_cmd, turtle_namespace)`. -/
def addSimple (ns : PyNamespaceClass) (d : PyDict) (c : String) :
    Except PyError PyDict := do
  let w ← _simple_cmd c ns
  return dictUpdate d c w

/-- One iteration of `namespace[_cmd] = _get_cmd(_cmd, turtle_namespace)`. -/
def addGetter (ns : PyNamespaceClass) (d : PyDict) (c : String) :
    Except PyError PyDict := do
  let w ← _get_cmd c ns
  return dictUpdate d c w

/-- One iteration of the alias loop in `qturtle_namespace`:
`namespace[_alias] = namespace[_name]` (dict subscript on an absent key
raises `KeyError`). -/
def addAliasEnglish (d : PyDict) (p : String × String) : Except PyError PyDict :=
  match d p.2 with
  | some w => .ok (dictUpdate d p.1 w)
  | none => .error (.keyError p.2)

/-- Embeds `qturtle_namespace()`, with the external
`TurtleNamespaceEnglish` class abstracted as `tnE`: build the simple
commands, then the aliases, then the getters, and return the dict. -/
def qturtle_namespace (tnE : PyNamespaceClass) : Except PyError PyDict := do
  let d ← englishCommands.foldlM (addSimple tnE) emptyDict
  let d ← tnE.aliases.foldlM addAliasEnglish d
  let d ← englishGetters.foldlM (addGetter tnE) d
  return d

/-- The literal command list of `pytuga_namespace`. -/
def pytugaCommands : List String :=
  ["frente", "trás", "esquerda", "direita", "levantar", "abaixar",
   "ir_para", "pular_para",
   "definir_posição", "definir_direção", "definir_espessura",
   "definir_cor_da_linha", "definir_cor_do_fundo",
   "velocidade", "reiniciar", "limpar", "ajuda", "imprimir_imagem"]

/-- The literal state-getter list of `pytuga_namespace`. -/
def pytugaGetters : List String :=
  ["posição", "direção", "espessura", "cor_da_linha", "cor_do_fundo",
   "desenhando"]

/-- One iteration of the alias loop in `pytuga_namespace`:
`namespace[_alias] = namespace.get(_name) or namespace_english[_name]`.
`dict.get` yields `None` on a missing key; a wrapper object is always
truthy, so `or` falls through to the english dict subscript exactly when
the key is missing, and that subscript raises `KeyError` when missing
there too. -/
def addAliasPytuga (dE : PyDict) (d : PyDict) (p : String × String) :
    Except PyError PyDict :=
  match d p.2 with
  | some w => .ok (dictUpdate d p.1 w)
  | none =>
    match dE p.2 with
    | some w => .ok (dictUpdate d p.1 w)
    | none => .error (.keyError p.2)

/-- Embeds `pytuga_namespace()`, with the external `TurtleNamespace` class
abstracted as `tn` and `TurtleNamespaceEnglish` as `tnE`.  The body builds
`namespace_english`, the simple commands, the aliases and the getters into
the local `namespace`, but its final statement is `return ns` — and no
statement in the function body ever binds a local named `ns`, so reaching
the return statement raises `NameError`. -/
def pytuga_namespace (tn tnE : PyNamespaceClass) : Except PyError PyDict := do
  let dE ← qturtle_namespace tnE
  let d ← pytugaCommands.foldlM (addSimple tn) emptyDict
  let d ← tn.aliases.foldlM (addAliasPytuga dE) d
  let _ ← pytugaGetters.foldlM (addGetter tn) d
  .error (.nameError "ns")

/-!
Embedding of the module lifecycle around `_turtle_ctrl` and of the
`_TurtleWindow` class-level `_instance` cache.
-/

/-- Process bookkeeping of the control process: the next fresh process id
and the list of renderer processes started so far. -/
structure World where
  nextPid : Nat
  processes : List Nat
deriving DecidableEq, Repr

/-- The control-side proxy object, carrying the identity of the renderer
process its `__init__` started. -/
structure CtrlProxy where
  pid : Nat
deriving DecidableEq, Repr

/-- Embeds `_TurtleCtrl.__init__`: create the two queues and start exactly
one renderer process bound to them. -/
def TurtleCtrl_init (w : World) : CtrlProxy × World :=
  (⟨w.nextPid⟩, ⟨w.nextPid + 1, w.processes ++ [w.nextPid]⟩)

/-- Embeds the top-level statement `_turtle_ctrl = _TurtleCtrl()`, executed
exactly once, when the module is imported. -/
def moduleImport (w : World) : CtrlProxy × World := TurtleCtrl_init w

/-- A call to one of the public namespace functions: every wrapper closes
over the module-level global `_turtle_ctrl` and only invokes
`_turtle_ctrl(name, *args)` or `_turtle_ctrl.get(name, *args)` on it;
no wrapper constructs a `_TurtleCtrl`, so the world (spawned processes) is
unchanged and only the shared queues evolve.  For a getter wrapper only the
enqueue half of `get` is modelled here (the receive half needs the renderer
to answer first). -/
def runWrapper (c : CtrlProxy) (w : World) (s : SysState σ α ρ)
    (call : Wrapper × α) : CtrlProxy × World × SysState σ α ρ :=
  match call.1 with
  | .simple name => (c, w, ctrlCall s name call.2)
  | .getter name => (c, w, ctrlGetSend s name call.2)

/-- A whole control-process session after import: the sequence of namespace
function calls, applied in order. -/
def runWrappers (c : CtrlProxy) (w : World) (s : SysState σ α ρ) :
    List (Wrapper × α) → CtrlProxy × World × SysState σ α ρ
  | [] => (c, w, s)
  | call :: calls =>
    let r := runWrapper c w s call
    runWrappers r.1 r.2.1 r.2.2 calls

/-- Embeds `_TurtleWindow.__new__(cls, queue, rqueue)`: if the class-level
cache `cls._instance` is `None`, allocate and return a fresh instance
(`super().__new__`); otherwise return the cached instance.  Instances are
identified by `Nat` ids. -/
def TurtleWindow_new (cache : Option Nat) (fresh : Nat) : Nat :=
  match cache with
  | none => fresh
  | some i => i

/-- Runs `n` successive constructions `_TurtleWindow(...)` starting from the
class definition (`_instance = None`), returning the final cache value and
the list of instances the constructions returned.  The only writes to
`_TurtleWindow._instance` in the whole module are the class-body initializer;
neither `__new__` nor `__init__` (nor any other statement) assigns it, so
each construction leaves the cache exactly as `__new__` found it. -/
def constructWindows : Nat → Option Nat × List Nat
  | 0 => (none, [])
  | n + 1 =>
    let p := constructWindows n
    (p.1, p.2 ++ [TurtleWindow_new p.1 n])

/-!
A small concrete render target used by witnesses and counterexamples:
the target state is the turtle's position on a line; `forward` advances it
and returns the new position, `getpos` queries it, `getheading` answers the
constant 90.
-/

/-- Method table of the concrete demonstration target. -/
def demoMethods : String → Option (Int → Int → Int × Int) := fun n =>
  if n = "forward" then some (fun t a => (t + a, t + a))
  else if n = "getpos" then some (fun t _ => (t, t))
  else if n = "getheading" then some (fun t _ => (t, 90))
  else none

/-- The concrete demonstration render target. -/
def demoT : RenderTarget Int Int Int := ⟨demoMethods⟩

/-!  Theorems. -/

/-- C1, counterexample: with two `send("forward", (5,))` commands queued and
position 0, one timer tick dispatches only the first: the second command is
still queued and only one move has been applied (position 5), contradicting
"after one tick both moves have been dispatched". -/
theorem tick_leaves_second_command_queued :
    timerEvent demoT ⟨[⟨"forward", 5⟩, ⟨"forward", 5⟩], [], 0⟩ =
      .ok ⟨[⟨"forward", 5⟩], [], 5⟩ ∧
    (⟨[⟨"forward", 5⟩], [], 5⟩ : SysState Int Int Int) ≠ ⟨[], [], 10⟩ := by
  exact ⟨by rfl, by decide⟩

/-- C1, amended: `timerEvent` dispatches at most one command per tick — a
tick on an empty queue is a no-op, and a tick on a non-empty queue removes
and consumes exactly the oldest command; consequently two queued
`forward (5)` moves are both applied, in order, after two ticks. -/
theorem tick_dispatches_at_most_one (T : RenderTarget σ α ρ) (rq : List ρ)
    (t : σ) (task : Cmd α) (rest : List (Cmd α)) :
    timerEvent T ⟨[], rq, t⟩ = .ok ⟨[], rq, t⟩ ∧
    timerEvent T ⟨task :: rest, rq, t⟩ = consume T ⟨rest, rq, t⟩ task ∧
    runTicks demoT 2 ⟨[⟨"forward", 5⟩, ⟨"forward", 5⟩], [], 0⟩ =
      .ok ⟨[], [], 10⟩ := by
  exact ⟨rfl, rfl, by rfl⟩

/-- C4, counterexample: dispatching a command whose name is not found on the
render target does not terminate the tick normally — the `AttributeError`
from `getattr` propagates out of `consume` and `timerEvent` (there is no
try/except), so the tick ends with the exception instead of reporting and
continuing. -/
theorem unknown_command_error_propagates :
    timerEvent demoT ⟨[⟨"jump", 1⟩, ⟨"forward", 5⟩], [], 0⟩ =
      .error (.attributeError "jump") := by
  rfl

/-- C4, amended: on a command whose (marker-stripped) name is not found on
the render target, `getattr` raises `AttributeError`; nothing catches it, so
the tick handler terminates with that exception — the command has been
removed from the queue but is not reported-and-skipped, and no result is
produced. -/
theorem unknown_command_raises (T : RenderTarget σ α ρ) (name : String)
    (p : α) (rest : List (Cmd α)) (rq : List ρ) (t : σ) :
    (isQueryName name = false → T.methods name = none →
      timerEvent T ⟨⟨name, p⟩ :: rest, rq, t⟩ =
        .error (.attributeError name)) ∧
    (isQueryName name = true → T.methods (name.drop 1) = none →
      timerEvent T ⟨⟨name, p⟩ :: rest, rq, t⟩ =
        .error (.attributeError (name.drop 1))) := by
  constructor <;> intro h hm <;> simp [timerEvent, consume, h, hm]

/-- C4, witness for the amended theorem at a concrete unknown name. -/
theorem unknown_command_raises_witness :
    timerEvent demoT ⟨[⟨"fly", 3⟩], [], 0⟩ = .error (.attributeError "fly") :=
  (unknown_command_raises demoT "fly" 3 [] [] 0).1 rfl rfl

/-- C5: `_TurtleCtrl.get(name, args, kwargs)` first enqueues a command whose
name is the original name tagged with the query marker (`'*' + name`); then,
while the result queue is empty, each probe of the polling loop yields
nothing (the caller sleeps for the short 1e-3 s interval and rechecks); as
soon as the result queue is non-empty, exactly one item — the oldest — is
removed and returned as the call's value. -/
theorem get_tags_polls_takes_one (s : SysState σ α ρ) (name : String)
    (p : α) (r : ρ) (rest : List ρ) :
    ctrlGetSend s name p =
      { s with queue := s.queue ++ [⟨"*" ++ name, p⟩] } ∧
    (s.rqueue = [] → ctrlGetReceive s = none) ∧
    (s.rqueue = r :: rest →
      ctrlGetReceive s = some (r, { s with rqueue := rest })) := by
  refine ⟨rfl, ?_, ?_⟩ <;> intro h <;> simp [ctrlGetReceive, h]

/-- C5, witness at a concrete state with a pending result. -/
theorem get_tags_polls_takes_one_witness :
    ctrlGetSend (⟨[], [7, 9], 0⟩ : SysState Int Int Int) "getpos" 0 =
      ⟨[⟨"*getpos", 0⟩], [7, 9], 0⟩ ∧
    ctrlGetReceive (⟨[], [7, 9], 0⟩ : SysState Int Int Int) =
      some (7, ⟨[], [9], 0⟩) := by
  have h := get_tags_polls_takes_one
    (⟨[], [7, 9], 0⟩ : SysState Int Int Int) "getpos" 0 7 [9]
  exact ⟨h.1, h.2.2 rfl⟩

/-- C6: `consume` looks the command's name up on the render target.  For a
plain name (no `*` marker), the method named by it is invoked on the target
with the command's payload and its return value is discarded — the result
queue is untouched.  For a marked name, the method named with the marker
stripped is invoked and its return value is appended to the result queue. -/
theorem consume_dispatch (T : RenderTarget σ α ρ) (s : SysState σ α ρ)
    (name : String) (p : α) (m : σ → α → σ × ρ) :
    (isQueryName name = false → T.methods name = some m →
      consume T s ⟨name, p⟩ = .ok { s with target := (m s.target p).1 }) ∧
    (isQueryName name = true → T.methods (name.drop 1) = some m →
      consume T s ⟨name, p⟩ =
        .ok { s with target := (m s.target p).1,
                     rqueue := s.rqueue ++ [(m s.target p).2] }) := by
  constructor <;> intro h hm <;> simp [consume, h, hm]

/-- C6, witness: a plain `forward` updates the target and leaves the result
queue empty; a marked `*getpos` answers onto the result queue. -/
theorem consume_dispatch_witness :
    consume demoT ⟨[], [], 2⟩ ⟨"forward", 5⟩ = .ok ⟨[], [], 7⟩ ∧
    consume demoT ⟨[], [], 2⟩ ⟨"*getpos", 0⟩ = .ok ⟨[], [2], 2⟩ := by
  constructor
  · exact (consume_dispatch demoT ⟨[], [], 2⟩ "forward" 5
      (fun t a => (t + a, t + a))).1 rfl rfl
  · exact (consume_dispatch demoT ⟨[], [], 2⟩ "*getpos" 0
      (fun t _ => (t, t))).2 rfl rfl

/-- C7: `_TurtleCtrl.__call__` (send) appends exactly the command
`[name, args, kwds]` to the command queue — the name verbatim, with no
marker added — and that is its only effect: the result queue and the target
are untouched, and nothing is read from any queue. -/
theorem send_enqueues_verbatim (s : SysState σ α ρ) (name : String) (p : α) :
    ctrlCall s name p = { s with queue := s.queue ++ [⟨name, p⟩] } ∧
    (ctrlCall s name p).rqueue = s.rqueue ∧
    (ctrlCall s name p).target = s.target := by
  exact ⟨rfl, rfl, rfl⟩

/-- C9: a fire-and-forget send whose name itself begins with the query
marker is treated as a query by the consumer: after one tick its return
value (the position, 7) sits on the result queue with no caller waiting.
The next unrelated `get` (for the heading) then observes a non-empty result
queue immediately and returns the stale 7 — even though its own query, once
consumed, would answer 90 — so the FIFO call/result matching is broken. -/
theorem stale_result_from_marked_send :
    timerEvent demoT (ctrlCall ⟨[], [], 7⟩ "*getpos" 0) = .ok ⟨[], [7], 7⟩ ∧
    ctrlGetReceive (ctrlGetSend ⟨[], [7], 7⟩ "getheading" 0) =
      some (7, ⟨[⟨"*getheading", 0⟩], [], 7⟩) ∧
    consume demoT ⟨[], [], 7⟩ ⟨"*getheading", 0⟩ = .ok ⟨[], [90], 7⟩ ∧
    (7 : Int) ≠ 90 := by
  exact ⟨by rfl, by rfl, by rfl, by decide⟩

/-- Helper: if a tick succeeds, running `n + 1` ticks equals running `n`
ticks from the successor state. -/
theorem runTicks_succ_ok (T : RenderTarget σ α ρ) (n : Nat)
    (s s' : SysState σ α ρ) (h : timerEvent T s = .ok s') :
    runTicks T (n + 1) s = runTicks T n s' := by
  simp [runTicks, h]

/-- Helper: a fully resolvable command sequence is drained in `length`
ticks, ending with an empty command queue, the reference results of
`processAll` appended to the result queue in order, and the reference final
target state. -/
theorem runTicks_drain (T : RenderTarget σ α ρ) (cmds : List (Cmd α)) :
    ∀ (rq : List ρ) (t : σ), (∀ c ∈ cmds, resolvesB T c = true) →
      runTicks T cmds.length ⟨cmds, rq, t⟩ =
        .ok ⟨[], rq ++ (processAll T cmds t).2, (processAll T cmds t).1⟩ := by
  induction cmds with
  | nil => intro rq t _; simp [runTicks, processAll]
  | cons c cs ih =>
    intro rq t h
    have hc := h c (List.mem_cons_self c cs)
    have hcs : ∀ x ∈ cs, resolvesB T x = true :=
      fun x hx => h x (List.mem_cons_of_mem c hx)
    unfold resolvesB at hc
    by_cases hq : isQueryName c.name
    · rw [if_pos hq] at hc
      rcases hm : T.methods (c.name.drop 1) with _ | m
      · rw [hm] at hc; simp at hc
      · have hstep : timerEvent T ⟨c :: cs, rq, t⟩ =
            .ok ⟨cs, rq ++ [(m t c.payload).2], (m t c.payload).1⟩ := by
          cases c with
          | mk nm p => simp_all [timerEvent, consume]
        rw [List.length_cons, runTicks_succ_ok T cs.length _ _ hstep,
          ih _ _ hcs]
        simp [processAll, hq, hm, List.append_assoc]
    · rw [if_neg hq] at hc
      rcases hm : T.methods c.name with _ | m
      · rw [hm] at hc; simp at hc
      · have hstep : timerEvent T ⟨c :: cs, rq, t⟩ =
            .ok ⟨cs, rq, (m t c.payload).1⟩ := by
          cases c with
          | mk nm p => simp_all [timerEvent, consume]
        rw [List.length_cons, runTicks_succ_ok T cs.length _ _ hstep,
          ih _ _ hcs]
        simp [processAll, hq, hm]

/-- Helper: on a fully resolvable command sequence, `processAll` yields
exactly one result per query (marker-carrying) command. -/
theorem processAll_length (T : RenderTarget σ α ρ) (cmds : List (Cmd α)) :
    ∀ t : σ, (∀ c ∈ cmds, resolvesB T c = true) →
      (processAll T cmds t).2.length =
        (cmds.filter fun c => isQueryName c.name).length := by
  induction cmds with
  | nil => intro t _; simp [processAll]
  | cons c cs ih =>
    intro t h
    have hc := h c (List.mem_cons_self c cs)
    have hcs : ∀ x ∈ cs, resolvesB T x = true :=
      fun x hx => h x (List.mem_cons_of_mem c hx)
    unfold resolvesB at hc
    by_cases hq : isQueryName c.name
    · rw [if_pos hq] at hc
      rcases hm : T.methods (c.name.drop 1) with _ | m
      · rw [hm] at hc; simp at hc
      · simp [processAll, hq, hm, List.filter_cons, ih _ hcs]
    · rw [if_neg hq] at hc
      rcases hm : T.methods c.name with _ | m
      · rw [hm] at hc; simp at hc
      · simp [processAll, hq, hm, List.filter_cons, ih _ hcs]

/-- C3: for every sequence of commands on the command queue in which each
command's name resolves on the render target, draining the queue appends to
the result queue exactly one result per query command — none for plain
commands — and the results appear in exactly the relative order in which
the queries were enqueued, as characterized by the in-order reference fold
`processAll`: no query is skipped, duplicated, or answered out of order. -/
theorem query_results_in_order (T : RenderTarget σ α ρ)
    (cmds : List (Cmd α)) (rq : List ρ) (t : σ)
    (h : ∀ c ∈ cmds, resolvesB T c = true) :
    runTicks T cmds.length ⟨cmds, rq, t⟩ =
      .ok ⟨[], rq ++ (processAll T cmds t).2, (processAll T cmds t).1⟩ ∧
    (processAll T cmds t).2.length =
      (cmds.filter fun c => isQueryName c.name).length :=
  ⟨runTicks_drain T cmds rq t h, processAll_length T cmds t h⟩

/-- C3, witness: a plain move followed by two queries is drained in three
ticks; the two answers arrive in query order (position 5 first, then the
heading 90). -/
theorem query_results_in_order_witness :
    runTicks demoT 3 ⟨[⟨"forward", 5⟩, ⟨"*getpos", 0⟩, ⟨"*getheading", 0⟩],
        [], 0⟩ = .ok ⟨[], [5, 90], 5⟩ ∧
    (processAll demoT [⟨"forward", 5⟩, ⟨"*getpos", 0⟩, ⟨"*getheading", 0⟩]
        0).2.length = 2 := by
  have h := query_results_in_order demoT
    [⟨"forward", 5⟩, ⟨"*getpos", 0⟩, ⟨"*getheading", 0⟩] [] 0 (by decide)
  exact ⟨h.1, h.2⟩

/-- Helper: a bound computation in `Except` ends in an error whenever its
continuation always does. -/
theorem bind_error_of_error {ε A B : Type} (x : Except ε A)
    (f : A → Except ε B) (h : ∀ a, ∃ e, f a = .error e) :
    ∃ e, x >>= f = .error e := by
  cases x with
  | error e => exact ⟨e, rfl⟩
  | ok a => simpa [bind, Except.bind] using h a

/-- A namespace class on which every attribute lookup succeeds and which
declares no aliases; used to exhibit the behavior of `pytuga_namespace`
when nothing else goes wrong first. -/
def fullNS : PyNamespaceClass := ⟨fun _ => true, []⟩

/-- C2: `pytuga_namespace()` never returns a dictionary.  Whatever the two
turtle-namespace classes provide, every execution either raises while
building (missing attribute or alias) or reaches the final statement
`return ns`, whose local `ns` is never bound anywhere in the function body,
and raises `NameError`; in particular, with fully resolving namespace
classes the call raises exactly `NameError` on `ns`.  Consequently the
module-level `globals().update(pytuga_namespace())` can never succeed. -/
theorem pytuga_namespace_never_returns (tn tnE : PyNamespaceClass) :
    (∃ e : PyError, pytuga_namespace tn tnE = .error e) ∧
    pytuga_namespace fullNS fullNS = .error (.nameError "ns") := by
  constructor
  · unfold pytuga_namespace
    refine bind_error_of_error _ _ fun dE => ?_
    refine bind_error_of_error _ _ fun d1 => ?_
    refine bind_error_of_error _ _ fun d2 => ?_
    refine bind_error_of_error _ _ fun d3 => ?_
    exact ⟨.nameError "ns", rfl⟩
  · rfl

/-- C8, counterexample: the renderer process is spawned eagerly by the
top-level statement `_turtle_ctrl = _TurtleCtrl()` when the module is
imported, before any command is issued — not at first need: after import
with zero commands issued, one renderer process has already been started. -/
theorem spawn_happens_at_import :
    ((moduleImport ⟨0, []⟩).2).processes = [0] ∧ ([0] : List Nat) ≠ [] :=
  ⟨rfl, by decide⟩

/-- Helper: the wrapper functions never construct a `_TurtleCtrl`: running
any sequence of namespace-function calls leaves the proxy and the process
bookkeeping exactly as they were. -/
theorem runWrappers_const (c : CtrlProxy) (w : World)
    (s : SysState σ α ρ) (calls : List (Wrapper × α)) :
    (runWrappers c w s calls).1 = c ∧ (runWrappers c w s calls).2.1 = w := by
  induction calls generalizing s with
  | nil => exact ⟨rfl, rfl⟩
  | cons call calls ih =>
    rcases call with ⟨wr, p⟩
    cases wr <;> simpa [runWrappers, runWrapper] using ih _

/-- C8, amended: importing the module spawns exactly one renderer process —
eagerly, at import time — bound to the single pair of queues, and every
subsequent namespace-function call reuses that same cached proxy and spawns
nothing: after any sequence of calls the process list still holds exactly
the one process started at import, and the proxy in use is still the
imported one; a second renderer is never spawned. -/
theorem single_renderer_process (w0 : World) (s0 : SysState σ α ρ)
    (calls : List (Wrapper × α)) :
    (runWrappers (moduleImport w0).1 (moduleImport w0).2 s0 calls).1 =
      (moduleImport w0).1 ∧
    (runWrappers (moduleImport w0).1 (moduleImport w0).2 s0
        calls).2.1.processes = w0.processes ++ [w0.nextPid] := by
  refine ⟨(runWrappers_const _ _ _ _).1, ?_⟩
  rw [(runWrappers_const _ _ _ _).2]
  rfl

/-- C10: the class-level cache `_TurtleWindow._instance` is set to `None` by
the class body and never assigned again anywhere in the module, so every
construction of `_TurtleWindow` finds the cache `None` and returns a fresh
instance — after `n` constructions the cache is still `None` and the
returned instances are the `n` pairwise-distinct fresh ones; the
return-cached-instance branch of `__new__` is unreachable. -/
theorem window_cache_never_set (n : Nat) :
    (constructWindows n).1 = none ∧
    (constructWindows n).2 = List.range n ∧
    (constructWindows n).2.Nodup := by
  have key : ∀ m : Nat, (constructWindows m).1 = none ∧
      (constructWindows m).2 = List.range m := by
    intro m
    induction m with
    | zero => exact ⟨rfl, rfl⟩
    | succ k ih =>
      refine ⟨ih.1, ?_⟩
      simp [constructWindows, ih.1, ih.2, TurtleWindow_new, List.range_succ]
  refine ⟨(key n).1, (key n).2, ?_⟩
  rw [(key n).2]
  exact List.nodup_range n

end QTurtle
